import Mathlib

/-!
# Trebuchet — shallow embedding of `src/lib/index.js`

Trebuchet is a node.js email helper: it renders handlebars templates (with
optional CSS style inlining via juice) and posts the result to the Postmark
HTTP API, either immediately (`fling`), or accumulated in an outbox
(`load`) and batch-sent later (`fire`).

The embedding below translates the module function by function.  External
collaborators are modelled explicitly:

* the filesystem is a function `FS.read : String → Option String`
  (`none` models an `fs.readFile` error such as ENOENT);
* handlebars is a function `Hb.compileErr : String → Option String`
  (`some e` models `handlebars.compile(template)` or the compiled template
  throwing an exception whose text is `e`);
* rendered strings are kept symbolic: the inductive `Rendered` records which
  template was rendered against which data, and whether juice was applied,
  so that the *shape* of the produced content is observable;
* the HTTP transport result is a parameter `HttpResult` (network error, or a
  response with a status code and parsed JSON body).

Effects are made observable as traces: each operation returns the list of
file reads, template compilations, HTTP requests and callback invocations it
performs, in order.
-/

namespace Trebuchet

/-- Template locals (`data` argument): a string-keyed record. -/
abbrev Data := List (String × String)

/-- Symbolic rendered content.  `render t d` is the string produced by
`handlebars.compile(t)(d)`; `juice r s` is the string produced by
`juice(r, s)` (CSS rules of stylesheet `s` inlined into `r`). -/
inductive Rendered
  | render (template : String) (data : Data)
  | juice (result : Rendered) (style : String)
deriving DecidableEq

/-- Whether juice (CSS inlining) was applied at the top of the content. -/
def Rendered.isJuiced : Rendered → Bool
  | .juice _ _ => true
  | .render _ _ => false

/-- Error values that the module passes on the error channel of a callback.
`fsErr p` stands for a Node `fs` error object, which carries the failing
path `p`; `boolTrue` is the literal `true` passed by `proc`'s catch block;
`str s` is a plain string error (outbox capacity, provider `Message`);
`transport e` is a network-level error object from `request`. -/
inductive JsErr
  | fsErr (path : String)
  | boolTrue
  | str (s : String)
  | transport (e : String)
deriving DecidableEq

/-- The filesystem collaborator: `read p` is `some contents` when
`fs.readFile(p)` succeeds and `none` when it reports an error. -/
structure FS where
  read : String → Option String

/-- The handlebars collaborator: `compileErr t = some e` when compiling
template source `t` (or rendering it) throws an exception with text `e`. -/
structure Hb where
  compileErr : String → Option String

/-- `path.resolve(input)`: resolve `input` against the working directory.
Absolute inputs are returned unchanged, relative ones are joined to `cwd`. -/
def pathResolve (cwd input : String) : String :=
  if input.data.head? = some '/' then input else cwd ++ "/" ++ input

/-- `path.join(a, b, c)`. -/
def pathJoin (a b c : String) : String :=
  a ++ "/" ++ b ++ "/" ++ c

/-- Outcome of `proc`'s callback, mirroring the three call shapes in the
source: `callback(err)` after a failed read, `callback(true, msg)` from the
catch block, and `callback(false/null, result)` on success. -/
inductive ProcOutcome
  | readFail (e : JsErr)
  | compileFail (msg : String)
  | ok (result : Rendered)
deriving DecidableEq

/-- The error value `proc` hands to `async.auto` (the first callback
argument): the fs error object, the literal `true`, or nothing. -/
def procErr : ProcOutcome → Option JsErr
  | .readFail e => some e
  | .compileFail _ => some .boolTrue
  | .ok _ => none

/-- The result value `proc` hands to `async.auto` on success. -/
def procVal : ProcOutcome → Option Rendered
  | .ok r => some r
  | _ => none

/-- Trace of one `proc` invocation: its callback outcome, the file paths it
read (in order) and the template sources it compiled. -/
structure ProcTrace where
  outcome : ProcOutcome
  reads : List String
  compiles : List String
deriving DecidableEq

/-- `proc(input, data, css, callback)` from `compile` (src/lib/index.js
161-195): resolve the path, read the file, compile and render it with
handlebars; when `juiced` is set, additionally read the `css` file and run
juice over the rendered result.  A read error is passed through as the fs
error; a compile exception yields `callback(true, msg)` where `msg` names
the absolute path. -/
def proc (fs : FS) (hb : Hb) (juiced : Bool) (cwd : String)
    (input : String) (data : Data) (css : String) : ProcTrace :=
  let abspath := pathResolve cwd input
  match fs.read abspath with
  | none => ⟨.readFail (.fsErr abspath), [abspath], []⟩
  | some template =>
    match hb.compileErr template with
    | some e =>
        ⟨.compileFail ("Caught an exception while processing file: "
            ++ abspath ++ "\n" ++ e), [abspath], [template]⟩
    | none =>
        let result := Rendered.render template data
        if juiced then
          match fs.read css with
          | none => ⟨.readFail (.fsErr css), [abspath, css], [template]⟩
          | some style => ⟨.ok (.juice result style), [abspath, css], [template]⟩
        else
          ⟨.ok result, [abspath], [template]⟩

/-- Module configuration (after `_.defaults`). -/
structure Config where
  apikey : String
  env : String
  templateDirectory : String
deriving DecidableEq

/-- The path override at the top of `compile` (lines 148-154): a non-empty
`templateName` replaces the explicit html/css/text paths by
`templateDirectory/templateName/index.{html,css,txt}`. -/
def templatePaths (templateDirectory : String)
    (html css text templateName : String) : String × String × String :=
  if templateName ≠ "" then
    (pathJoin templateDirectory templateName "index.html",
     pathJoin templateDirectory templateName "index.css",
     pathJoin templateDirectory templateName "index.txt")
  else
    (html, css, text)

/-- Result of `compile`'s `async.auto` callback together with the effect
trace.  `err` is the error argument (the first task error, if any); `html`
and `text` are the per-task results — each present only when its task
succeeded (partial results on error).  `async.auto` runs both file reads
independently; the trace serialises them html-task-first, and on a double
failure the html task's error is the one surfaced, modelling the task
listing order. -/
structure CompileRes where
  err : Option JsErr
  html : Option Rendered
  text : Option Rendered
  reads : List String
  compiles : List String
deriving DecidableEq

/-- `compile(html, css, text, data, templateName, callback)`
(src/lib/index.js 148-202): apply the `templateName` override, decide
whether juice runs (`css !== ''` — note the flag is global to *both*
tasks), then run `proc` on the html input and on the text input. -/
def compileRun (fs : FS) (hb : Hb) (cfg : Config) (cwd : String)
    (html css text : String) (data : Data) (templateName : String) :
    CompileRes :=
  let p := templatePaths cfg.templateDirectory html css text templateName
  let html := p.1
  let css := p.2.1
  let text := p.2.2
  let juiced := css != ""
  let ph := proc fs hb juiced cwd html data css
  let pt := proc fs hb juiced cwd text data css
  { err := match procErr ph.outcome with
      | some e => some e
      | none => procErr pt.outcome,
    html := procVal ph.outcome,
    text := procVal pt.outcome,
    reads := ph.reads ++ pt.reads,
    compiles := ph.compiles ++ pt.compiles }

/-- A message handed to the dispatcher: `options.params` with the rendered
bodies attached (`message.htmlbody = content.html` etc.).  A body is `none`
when the corresponding render task produced no result (JS `undefined`). -/
structure Message where
  params : List (String × String)
  htmlbody : Option Rendered
  textbody : Option Rendered
deriving DecidableEq

/-- A dispatch payload: a single message object or an array of messages. -/
inductive Payload
  | email (m : Message)
  | batch (ms : List Message)
deriving DecidableEq

/-- `_.isArray(message)`. -/
def Payload.isArray : Payload → Bool
  | .email _ => false
  | .batch _ => true

/-- An HTTP request as built by `send` for `request(...)`. -/
structure HttpRequest where
  uri : String
  method : String
  headers : List (String × String)
  body : Payload
deriving DecidableEq

def batchUrl : String := "https://api.postmarkapp.com/email/batch"

def emailUrl : String := "https://api.postmarkapp.com/email"

/-- Parsed JSON response body; Postmark failure bodies carry a structured
`Message` field (other fields are kept abstract in `rest`). -/
structure RespBody where
  Message : String
  rest : List (String × String)
deriving DecidableEq

/-- Outcome of the HTTP round trip: a network-level error before any
response (`request` passed `e`), or a response with a status code and
parsed body. -/
inductive HttpResult
  | netErr (e : String)
  | resp (status : Nat) (body : RespBody)
deriving DecidableEq

/-- The request object `send` builds (src/lib/index.js 211-223): POST to
the batch endpoint when the payload is an array, the single-message
endpoint otherwise; the API key travels in the `X-Postmark-Server-Token`
header and the payload is the JSON body. -/
def sendRequest (apikey : String) (message : Payload) : HttpRequest :=
  { uri := if message.isArray then batchUrl else emailUrl,
    method := "POST",
    headers := [("X-Postmark-Server-Token", apikey)],
    body := message }

/-- `send`'s response handling (lines 224-232): a transport error is passed
through; a non-200 status surfaces `body.Message` as the error; a 200
response yields the parsed body. -/
def sendCb (net : HttpResult) : Option JsErr × Option RespBody :=
  match net with
  | .netErr e => (some (.transport e), none)
  | .resp status body =>
      if status ≠ 200 then (some (.str body.Message), none)
      else (none, some body)

/-- Trace of one `send` invocation: the HTTP requests issued and the
callback invocations performed. -/
structure SendRes where
  httpCalls : List HttpRequest
  callbacks : List (Option JsErr × Option RespBody)
deriving DecidableEq

/-- `send(message, callback)` (src/lib/index.js 211-233). -/
def sendRun (apikey : String) (message : Payload) (net : HttpResult) :
    SendRes :=
  { httpCalls := [sendRequest apikey message],
    callbacks := [sendCb net] }

/-- Facade options object, after `_.defaults` filled the missing fields. -/
structure Options where
  params : List (String × String)
  html : String
  css : String
  text : String
  data : Data
  templateName : String
deriving DecidableEq

/-- The message `fling`/`load` build from a compile result: `options.params`
with `htmlbody`/`textbody` set from the (possibly partial) content. -/
def mkMessage (o : Options) (c : CompileRes) : Message :=
  { params := o.params, htmlbody := c.html, textbody := c.text }

/-- Trace of one `fling` invocation. -/
structure FlingRes where
  httpCalls : List HttpRequest
  callbacks : List (Option JsErr × Option RespBody)
deriving DecidableEq

/-- `fling(options, callback)` (src/lib/index.js 54-76).  Note the source's
`if (err) callback(err);` has no `return`: on a render error the callback
fires with the error and control still falls through into the try block,
which attaches the (partial) bodies and calls `send`, firing the callback a
second time with the dispatch outcome. -/
def flingRun (fs : FS) (hb : Hb) (cfg : Config) (cwd : String)
    (o : Options) (net : HttpResult) : FlingRes :=
  let c := compileRun fs hb cfg cwd o.html o.css o.text o.data o.templateName
  let errCbs : List (Option JsErr × Option RespBody) :=
    match c.err with
    | some e => [(some e, none)]
    | none => []
  let message := mkMessage o c
  let s := sendRun cfg.apikey (.email message) net
  { httpCalls := s.httpCalls, callbacks := errCbs ++ s.callbacks }

/-- The string `load` reports when the outbox is full. -/
def capacityMsg : String := "Postmark API batch size limit has been reached."

/-- Trace of one `load` invocation, with the resulting outbox. -/
structure LoadRes where
  httpCalls : List HttpRequest
  callbacks : List (Option JsErr × Option Nat)
  outbox : List Message
deriving DecidableEq

/-- `load(options, callback)` (src/lib/index.js 85-112).  Same missing
`return` as `fling`: on a render error the callback fires with the error
and the (malformed) message is still considered for the outbox.  At
capacity (`outbox.length >= 500`) the outbox is untouched and the callback
reports the capacity error with the current length; below capacity the
message is pushed and the callback receives the new length. -/
def loadRun (fs : FS) (hb : Hb) (cfg : Config) (cwd : String)
    (o : Options) (outbox : List Message) : LoadRes :=
  let c := compileRun fs hb cfg cwd o.html o.css o.text o.data o.templateName
  let errCbs : List (Option JsErr × Option Nat) :=
    match c.err with
    | some e => [(some e, none)]
    | none => []
  let message := mkMessage o c
  if outbox.length ≥ 500 then
    { httpCalls := [],
      callbacks := errCbs ++ [(some (.str capacityMsg), some outbox.length)],
      outbox := outbox }
  else
    { httpCalls := [],
      callbacks := errCbs ++ [(none, some (outbox ++ [message]).length)],
      outbox := outbox ++ [message] }

/-- Events of a `fire` invocation, in order: an HTTP request, the outbox
clear performed by `reset`, a caller-callback invocation. -/
inductive FireEvent
  | http (req : HttpRequest)
  | clear
  | cb (err : Option JsErr) (body : Option RespBody)
deriving DecidableEq

def FireEvent.isHttp : FireEvent → Bool
  | .http _ => true
  | _ => false

/-- `reset(callback)` (src/lib/index.js 132-135): empty the outbox and
report its (zero) length. -/
def resetRun (_outbox : List Message) :
    (Option JsErr × Nat) × List Message :=
  ((none, 0), [])

/-- `fire(callback)` (src/lib/index.js 119-125): send the whole outbox as
one batch, then `reset` the outbox inside `send`'s continuation, then hand
`send`'s `(err, obj)` to the caller.  Returns the event list and the new
outbox. -/
def fireRun (apikey : String) (outbox : List Message) (net : HttpResult) :
    List FireEvent × List Message :=
  let s := sendRun apikey (.batch outbox) net
  (s.httpCalls.map .http ++ [.clear]
     ++ s.callbacks.map (fun p => .cb p.1 p.2),
   (resetRun outbox).2)

/-!
## Heap model of the object mutations in `fling`/`load`

The trace model above treats messages as values.  The source, however,
works on shared mutable JS objects: `_.defaults(options, ...)` mutates the
caller's options object, `var message = options.params` takes a
*reference*, `message.htmlbody = ...` writes through it, and
`outbox.push(message)` stores that same reference.  The small heap
semantics below makes those reference effects explicit.
-/

/-- A heap reference (JS object identity). -/
abbrev Ref := Nat

/-- A JS value as far as this module observes it. -/
inductive HVal
  | vstr (s : String)
  | vref (r : Ref)
  | vrend (v : Rendered)
  | vundef
deriving DecidableEq

/-- A JS object: an ordered field map. -/
abbrev Obj := List (String × HVal)

/-- Property read `o[k]`; a missing field is `undefined`. -/
def getField : Obj → String → HVal
  | [], _ => .vundef
  | (k0, v0) :: t, k => if k0 == k then v0 else getField t k

/-- Property write `o[k] = v`: overwrite an existing field in place,
otherwise append it (JS object field maps have unique keys). -/
def setField : Obj → String → HVal → Obj
  | [], k, v => [(k, v)]
  | (k0, v0) :: t, k, v =>
      if k0 == k then (k, v) :: t else (k0, v0) :: setField t k v

/-- The heap: objects addressed by allocation order. -/
abbrev Heap := List Obj

/-- Dereference. -/
def heapGet (h : Heap) (r : Ref) : Obj := h.getD r []

/-- Overwrite the object at `r`. -/
def heapSet (h : Heap) (r : Ref) (o : Obj) : Heap := h.set r o

/-- One `_.defaults` step for a scalar default: set field `k` of the object
at `ro` to `v` if it is currently missing/undefined. -/
def defaultField (h : Heap) (ro : Ref) (k : String) (v : HVal) : Heap :=
  let o := heapGet h ro
  if getField o k = .vundef then heapSet h ro (setField o k v) else h

/-- One `_.defaults` step for an object default (`params: {}` / `data: {}`):
if field `k` is missing, allocate a fresh empty object and point `k` at
it. -/
def defaultObjField (h : Heap) (ro : Ref) (k : String) : Heap :=
  let o := heapGet h ro
  if getField o k = .vundef then
    let r := h.length
    let h2 := h ++ [[]]
    heapSet h2 ro (setField (heapGet h2 ro) k (.vref r))
  else h

/-- `_.defaults(options, {params: {}, html: '', css: '', text: '',
data: {}, templateName: ''})` as performed at the top of `fling` (lines
55-62) and `load` (lines 86-93): mutates the options object itself. -/
def applyOptionDefaults (h : Heap) (ro : Ref) : Heap :=
  let h1 := defaultObjField h ro "params"
  let h2 := defaultField h1 ro "html" (.vstr "")
  let h3 := defaultField h2 ro "css" (.vstr "")
  let h4 := defaultField h3 ro "text" (.vstr "")
  let h5 := defaultObjField h4 ro "data"
  defaultField h5 ro "templateName" (.vstr "")

/-- Lines 68-70 of `fling` and 99-101 of `load`:
`var message = options.params; message.htmlbody = ...;
message.textbody = ...`.  The write goes through the reference held in the
options object, mutating the caller's params object in place; the value
handed onward (to `send` or the outbox) is that same reference. -/
def setBodies (h : Heap) (ro : Ref) (htmlv textv : HVal) : Heap × HVal :=
  match getField (heapGet h ro) "params" with
  | .vref rp =>
      let p := setField (setField (heapGet h rp) "htmlbody" htmlv)
        "textbody" textv
      (heapSet h rp p, .vref rp)
  | v => (h, v)

/-- Heap-level `fling` mutation path (defaults, body attachment): returns
the mutated heap and the message value passed to `send`. -/
def flingHeap (h : Heap) (ro : Ref) (htmlv textv : HVal) : Heap × HVal :=
  setBodies (applyOptionDefaults h ro) ro htmlv textv

/-- Heap-level `load` (lines 85-112, successful render): defaults, body
attachment, then capacity check and push of the message *reference*. -/
def loadHeap (h : Heap) (ro : Ref) (htmlv textv : HVal)
    (outbox : List HVal) :
    Heap × List HVal × (Option JsErr × Option Nat) :=
  let hm := setBodies (applyOptionDefaults h ro) ro htmlv textv
  if outbox.length ≥ 500 then
    (hm.1, outbox, (some (.str capacityMsg), some outbox.length))
  else
    (hm.1, outbox ++ [hm.2], (none, some (outbox ++ [hm.2]).length))

/-- Reading the queued messages through a (possibly later) heap: what
`fire` would serialise if dispatch happened against heap `h`. -/
def queuedMessages (h : Heap) (box : List HVal) : List Obj :=
  box.map (fun x => match x with | .vref r => heapGet h r | _ => [])

/-!
## Concrete collaborators for closed runs

A three-file filesystem and two handlebars behaviours, used to evaluate
the model on concrete inputs (counterexamples and witnesses).  Template
sources are opaque strings, so placeholders stand in for real template
text.
-/

/-- Demo filesystem: an html template, a text template and a stylesheet
under `/work`; everything else is missing. -/
def fsDemo : FS :=
  ⟨fun p =>
    if p = "/work/t.html" then some "HTML_TPL greeting"
    else if p = "/work/t.txt" then some "TEXT_TPL greeting"
    else if p = "/work/style.css" then some "CSS_RULES"
    else none⟩

/-- Handlebars behaviour in which every template compiles. -/
def hbOk : Hb := ⟨fun _ => none⟩

/-- Handlebars behaviour in which every template is malformed and
compilation throws `Parse error`. -/
def hbBad : Hb := ⟨fun _ => some "Parse error"⟩

/-- Demo configuration (the module defaults). -/
def cfgDemo : Config :=
  { apikey := "POSTMARK_API_TEST", env := "PRODUCTION",
    templateDirectory := "./templates" }

/-- Options whose html path does not exist on `fsDemo` while the text path
does: the html render task fails with a read error. -/
def optsBad : Options :=
  { params := [("from", "a@x.com"), ("to", "b@x.com"), ("subject", "s")],
    html := "missing.html", css := "", text := "t.txt",
    data := [("greeting", "hi")], templateName := "" }

/-- Demo heap: object 0 is an options object whose `params` field holds a
reference to object 1 (the caller's params object); object 2 is the `data`
object.  The `css` field is absent. -/
def heapDemo : Heap :=
  [[("params", .vref 1), ("html", .vstr "t.html"),
    ("text", .vstr "t.txt"), ("data", .vref 2),
    ("templateName", .vstr "")],
   [("from", .vstr "a@x.com"), ("to", .vstr "b@x.com"),
    ("subject", .vstr "s")],
   []]

/-!
## Shared lemmas
-/

/-- Every `proc` invocation begins by reading the resolved input path:
its read trace starts with `path.resolve(input)`. -/
theorem proc_reads_head (fs : FS) (hb : Hb) (juiced : Bool)
    (cwd input : String) (data : Data) (css : String) :
    (proc fs hb juiced cwd input data css).reads.head? =
      some (pathResolve cwd input) := by
  unfold proc
  rcases hr : fs.read (pathResolve cwd input) with _ | tpl
  · simp [hr]
  · rcases hc : hb.compileErr tpl with _ | e
    · simp only [hr, hc]
      cases juiced
      · simp
      · rcases fs.read css with _ | style <;> simp
    · simp [hr, hc]

/-- Every `proc` invocation whose file read succeeds compiles the file's
contents (again): its compile trace is exactly the read template source. -/
theorem proc_compiles_read_template (fs : FS) (hb : Hb) (juiced : Bool)
    (cwd input : String) (data : Data) (css : String) (tpl : String)
    (hr : fs.read (pathResolve cwd input) = some tpl) :
    (proc fs hb juiced cwd input data css).compiles = [tpl] := by
  unfold proc
  rcases hc : hb.compileErr tpl with _ | e
  · simp only [hr, hc]
    cases juiced
    · simp
    · rcases fs.read css with _ | style <;> simp
  · simp [hr, hc]

/-- A successful outcome of a juiced `proc` run always carries inlined CSS
at the top of the result. -/
theorem proc_ok_juiced (fs : FS) (hb : Hb) (cwd input : String)
    (data : Data) (css : String) (r : Rendered)
    (h : (proc fs hb true cwd input data css).outcome = .ok r) :
    r.isJuiced = true := by
  unfold proc at h
  rcases hrd : fs.read (pathResolve cwd input) with _ | tpl
  · simp [hrd] at h
  · rcases hc : hb.compileErr tpl with _ | e
    · simp only [hrd, hc, if_true] at h
      rcases hcss : fs.read css with _ | style
      · simp [hcss] at h
      · simp only [hcss] at h
        cases h
        rfl
    · simp [hrd, hc] at h

/-- When juice is active and the CSS file is unreadable, `proc` never
succeeds: its surfaced error is present. -/
theorem proc_css_read_fail (fs : FS) (hb : Hb) (cwd input : String)
    (data : Data) (css : String) (hcss : fs.read css = none) :
    (procErr (proc fs hb true cwd input data css).outcome).isSome = true := by
  unfold proc
  rcases hrd : fs.read (pathResolve cwd input) with _ | tpl
  · simp [hrd, procErr]
  · rcases hc : hb.compileErr tpl with _ | e
    · simp [hrd, hc, hcss, procErr]
    · simp [hrd, hc, procErr]

/-- An unjuiced `proc` run reads exactly the resolved template file. -/
theorem proc_reads_not_juiced (fs : FS) (hb : Hb) (cwd input : String)
    (data : Data) (css : String) :
    (proc fs hb false cwd input data css).reads =
      [pathResolve cwd input] := by
  unfold proc
  rcases hrd : fs.read (pathResolve cwd input) with _ | tpl
  · simp [hrd]
  · rcases hc : hb.compileErr tpl with _ | e <;> simp [hrd, hc]

/-- `procVal` only returns a value for a successful outcome. -/
theorem procVal_some {o : ProcOutcome} {r : Rendered}
    (h : procVal o = some r) : o = .ok r := by
  cases o <;> simp_all [procVal]

/-- Reading back the field just written. -/
theorem getField_setField_self (o : Obj) (k : String) (v : HVal) :
    getField (setField o k v) k = v := by
  induction o with
  | nil => simp [setField, getField]
  | cons a t ih =>
    obtain ⟨k0, v0⟩ := a
    by_cases hk : (k0 == k) = true
    · simp [setField, getField, hk]
    · simp [setField, getField, hk, ih]

/-- Writing one field leaves every other field unchanged. -/
theorem getField_setField_other (o : Obj) (k k2 : String) (v : HVal)
    (hne : k2 ≠ k) :
    getField (setField o k v) k2 = getField o k2 := by
  induction o with
  | nil =>
    simp [setField, getField]
    intro hk
    exact absurd hk.symm hne
  | cons a t ih =>
    obtain ⟨k0, v0⟩ := a
    by_cases hk : (k0 == k) = true
    · have hk0 : k0 = k := eq_of_beq hk
      subst hk0
      have hkk2 : (k0 == k2) = false := by
        simp [beq_eq_false_iff_ne]
        exact fun hx => hne hx.symm
      simp [setField, getField, hkk2]
    · simp [setField, getField, hk, ih]

/-- Dereferencing the reference just overwritten. -/
theorem heapGet_heapSet_self (h : Heap) (r : Ref) (o : Obj)
    (hr : r < h.length) :
    heapGet (heapSet h r o) r = o := by
  simp [heapGet, heapSet, List.getD, List.getElem?_set_self hr]

/-- Overwriting one object leaves every other reference unchanged. -/
theorem heapGet_heapSet_other (h : Heap) (r r2 : Ref) (o : Obj)
    (hne : r ≠ r2) :
    heapGet (heapSet h r o) r2 = heapGet h r2 := by
  simp [heapGet, heapSet, List.getD, List.getElem?_set_ne hne]

/-!
## Claims
-/

/-- C2: flushing (`fire`) issues exactly one HTTP call, to the batch
endpoint, whose payload is the ordered array of all queued messages; the
outbox is cleared afterwards regardless of the dispatch outcome, and the
dispatch result or error is reported to the caller after the clear (the
callback event follows the clear event). -/
theorem c2_fire_batch_and_clear (apikey : String) (outbox : List Message)
    (net : HttpResult) :
    (fireRun apikey outbox net).2 = []
    ∧ (fireRun apikey outbox net).1 =
        [.http (sendRequest apikey (.batch outbox)), .clear,
         .cb (sendCb net).1 (sendCb net).2]
    ∧ (fireRun apikey outbox net).1.filter FireEvent.isHttp =
        [.http (sendRequest apikey (.batch outbox))]
    ∧ (sendRequest apikey (.batch outbox)).uri = batchUrl
    ∧ (sendRequest apikey (.batch outbox)).body = Payload.batch outbox
    ∧ (Payload.batch outbox).isArray = true :=
  ⟨rfl, rfl, rfl, rfl, rfl, rfl⟩

/-- C3: `load` fails with the capacity error and leaves the outbox
untouched when the outbox already holds 500 or more messages; below the
limit it appends the message and reports the new length, old length plus
one.  `load` never issues an HTTP call. -/
theorem c3_load_capacity (fs : FS) (hb : Hb) (cfg : Config) (cwd : String)
    (o : Options) (outbox : List Message) :
    (loadRun fs hb cfg cwd o outbox).httpCalls = []
    ∧ (500 ≤ outbox.length →
        (loadRun fs hb cfg cwd o outbox).outbox = outbox
        ∧ (loadRun fs hb cfg cwd o outbox).callbacks.getLast? =
            some (some (.str capacityMsg), some outbox.length))
    ∧ (outbox.length < 500 →
        (loadRun fs hb cfg cwd o outbox).outbox =
          outbox ++ [mkMessage o (compileRun fs hb cfg cwd o.html o.css
            o.text o.data o.templateName)]
        ∧ (loadRun fs hb cfg cwd o outbox).outbox.length =
            outbox.length + 1
        ∧ (loadRun fs hb cfg cwd o outbox).callbacks.getLast? =
            some (none, some (outbox.length + 1))) := by
  refine ⟨?_, fun hge => ?_, fun hlt => ?_⟩
  · unfold loadRun
    split <;> rfl
  · unfold loadRun
    rw [if_pos (by omega : outbox.length ≥ 500)]
    exact ⟨rfl, List.getLast?_concat _⟩
  · unfold loadRun
    rw [if_neg (by omega : ¬ outbox.length ≥ 500)]
    refine ⟨rfl, by simp, ?_⟩
    rw [List.getLast?_concat]
    simp

/-- C3 witness: loading into an empty outbox appends and returns length
one. -/
theorem c3_load_capacity_witness :
    (loadRun fsDemo hbOk cfgDemo "/work" optsBad []).outbox.length =
      ([] : List Message).length + 1 :=
  ((c3_load_capacity fsDemo hbOk cfgDemo "/work" optsBad []).2.2
    (by decide)).2.1

/-- C7: `send` performs exactly one HTTP POST whose body is the payload and
whose header carries the API key as the server token; the endpoint is
chosen solely by whether the payload is an array — the batch endpoint for
arrays, the single-message endpoint otherwise. -/
theorem c7_send_routing (apikey : String) (payload : Payload)
    (net : HttpResult) :
    (sendRun apikey payload net).httpCalls = [sendRequest apikey payload]
    ∧ (sendRequest apikey payload).method = "POST"
    ∧ (sendRequest apikey payload).headers =
        [("X-Postmark-Server-Token", apikey)]
    ∧ (sendRequest apikey payload).body = payload
    ∧ ((sendRequest apikey payload).uri = batchUrl ↔
        payload.isArray = true)
    ∧ ((sendRequest apikey payload).uri = emailUrl ↔
        payload.isArray = false) := by
  refine ⟨rfl, rfl, rfl, rfl, ?_, ?_⟩ <;>
    cases payload <;>
      simp [sendRequest, Payload.isArray, batchUrl, emailUrl]

/-- C8: a network-level failure surfaces the transport error; a non-200
response surfaces the body's structured `Message` field (not the raw
status); a 200 response yields the parsed body as the success result. -/
theorem c8_response_handling (apikey : String) (payload : Payload) :
    (∀ e, (sendRun apikey payload (.netErr e)).callbacks =
        [(some (.transport e), none)])
    ∧ (∀ status body, status ≠ 200 →
        (sendRun apikey payload (.resp status body)).callbacks =
          [(some (.str body.Message), none)])
    ∧ (∀ body, (sendRun apikey payload (.resp 200 body)).callbacks =
        [(none, some body)]) := by
  refine ⟨fun e => rfl, fun status body hs => ?_, fun body => ?_⟩
  · simp [sendRun, sendCb, hs]
  · simp [sendRun, sendCb]

/-- C8 witness: a 422 response with `Message` set surfaces that message as
the error. -/
theorem c8_response_handling_witness :
    (sendRun "key" (.batch [])
        (.resp 422 ⟨"Invalid API key", []⟩)).callbacks =
      [(some (.str "Invalid API key"), none)] :=
  (c8_response_handling "key" (.batch [])).2.1 422
    ⟨"Invalid API key", []⟩ (by decide)

/-- C9: a non-empty `templateName` overrides the explicit paths, resolving
to `templateDirectory/templateName/index.{html,css,txt}` (and `compile`'s
first file read is that resolved html path); an empty `templateName` leaves
the explicit paths unchanged. -/
theorem c9_template_name_override (fs : FS) (hb : Hb) (cfg : Config)
    (cwd : String) (html css text : String) (data : Data)
    (templateName : String) :
    (templateName ≠ "" →
      templatePaths cfg.templateDirectory html css text templateName =
        (cfg.templateDirectory ++ "/" ++ templateName ++ "/" ++ "index.html",
         cfg.templateDirectory ++ "/" ++ templateName ++ "/" ++ "index.css",
         cfg.templateDirectory ++ "/" ++ templateName ++ "/" ++ "index.txt")
      ∧ (compileRun fs hb cfg cwd html css text data
            templateName).reads.head? =
          some (pathResolve cwd (cfg.templateDirectory ++ "/"
            ++ templateName ++ "/" ++ "index.html")))
    ∧ (templateName = "" →
      templatePaths cfg.templateDirectory html css text templateName =
        (html, css, text)
      ∧ (compileRun fs hb cfg cwd html css text data
            templateName).reads.head? = some (pathResolve cwd html)) := by
  constructor
  · intro hne
    refine ⟨by unfold templatePaths; rw [if_pos hne]; rfl, ?_⟩
    unfold compileRun
    simp only [templatePaths, if_pos hne]
    rw [List.head?_append_of_ne_nil]
    · exact proc_reads_head fs hb _ cwd _ data _
    · intro hnil
      have := proc_reads_head fs hb
        (pathJoin cfg.templateDirectory templateName "index.css" != "")
        cwd (pathJoin cfg.templateDirectory templateName "index.html") data
        (pathJoin cfg.templateDirectory templateName "index.css")
      rw [hnil] at this
      exact Option.noConfusion this
  · intro he
    subst he
    refine ⟨by unfold templatePaths; rw [if_neg (by simp)], ?_⟩
    unfold compileRun
    simp only [templatePaths, if_neg (by simp : ¬ ("" : String) ≠ "")]
    rw [List.head?_append_of_ne_nil]
    · exact proc_reads_head fs hb _ cwd _ data _
    · intro hnil
      have := proc_reads_head fs hb (css != "") cwd html data css
      rw [hnil] at this
      exact Option.noConfusion this

/-- C9 witness: `templateName = "welcome"` resolves the html path to
`./templates/welcome/index.html` (and css/txt alike). -/
theorem c9_template_name_override_witness :
    templatePaths "./templates" "x.html" "x.css" "x.txt" "welcome" =
      ("./templates" ++ "/" ++ "welcome" ++ "/" ++ "index.html",
       "./templates" ++ "/" ++ "welcome" ++ "/" ++ "index.css",
       "./templates" ++ "/" ++ "welcome" ++ "/" ++ "index.txt") :=
  ((c9_template_name_override fsDemo hbOk
      ⟨"POSTMARK_API_TEST", "PRODUCTION", "./templates"⟩ "/work"
      "x.html" "x.css" "x.txt" [] "welcome").1 (by decide)).1

/-- C1 counterexample: rendering the same template path twice within one
process reads the file twice and compiles it twice — the second render is
not a cache hit, refuting "compiles the underlying template file at most
once". -/
theorem c1_counterexample :
    ((proc fsDemo hbOk false "/work" "t.html" [("greeting", "hi")] "").reads
        ++ (proc fsDemo hbOk false "/work" "t.html"
              [("greeting", "hi")] "").reads).count "/work/t.html" = 2
    ∧ ¬ ((proc fsDemo hbOk false "/work" "t.html"
            [("greeting", "hi")] "").compiles
        ++ (proc fsDemo hbOk false "/work" "t.html"
              [("greeting", "hi")] "").compiles).length ≤ 1 := by
  decide

/-- C1 (amended): there is no template cache — every render of a path
reads the template file (the first read is always the resolved path) and,
whenever the read succeeds, compiles the file contents afresh; so
rendering a path twice reads and compiles the file once per render. -/
theorem c1_no_cache (fs : FS) (hb : Hb) (juiced : Bool)
    (cwd input : String) (data : Data) (css : String) :
    (proc fs hb juiced cwd input data css).reads.head? =
      some (pathResolve cwd input)
    ∧ ∀ tpl, fs.read (pathResolve cwd input) = some tpl →
        (proc fs hb juiced cwd input data css).compiles = [tpl] :=
  ⟨proc_reads_head fs hb juiced cwd input data css,
   fun tpl hr =>
     proc_compiles_read_template fs hb juiced cwd input data css tpl hr⟩

/-- C1 witness: on the demo filesystem the render of `/work/t.html`
compiles the file's contents. -/
theorem c1_no_cache_witness :
    (proc fsDemo hbOk false "/work" "t.html" [] "").compiles =
      ["HTML_TPL greeting"] :=
  (c1_no_cache fsDemo hbOk false "/work" "t.html" [] "").2
    "HTML_TPL greeting" (by decide)

/-- C4 (code bug, concrete run): the html template is missing, so the
render fails; `fling` reports the read error to its callback and then —
the error branch does not return — still performs the HTTP dispatch with
`htmlbody` undefined, firing the callback a second time with the dispatch
outcome; `load` likewise fires its callback twice and still appends the
malformed message to the outbox. -/
theorem c4_render_failure_still_dispatches :
    (flingRun fsDemo hbOk cfgDemo "/work" optsBad
        (.resp 200 ⟨"OK", []⟩)).callbacks.length = 2
    ∧ (flingRun fsDemo hbOk cfgDemo "/work" optsBad
        (.resp 200 ⟨"OK", []⟩)).callbacks.head? =
        some (some (.fsErr "/work/missing.html"), none)
    ∧ (flingRun fsDemo hbOk cfgDemo "/work" optsBad
        (.resp 200 ⟨"OK", []⟩)).httpCalls =
        [sendRequest cfgDemo.apikey (.email
          { params := optsBad.params,
            htmlbody := none,
            textbody := some (.render "TEXT_TPL greeting"
              [("greeting", "hi")]) })]
    ∧ (loadRun fsDemo hbOk cfgDemo "/work" optsBad []).callbacks.length = 2
    ∧ (loadRun fsDemo hbOk cfgDemo "/work" optsBad []).outbox.length = 1 := by
  decide

/-- C5 counterexample: with a non-empty CSS path the *text* result also
comes back with the CSS inlined (juice applied), refuting "the rendered
text result is returned without any CSS inlining applied to it". -/
theorem c5_counterexample :
    (compileRun fsDemo hbOk cfgDemo "/work" "t.html" "/work/style.css"
        "t.txt" [("greeting", "hi")] "").text =
      some (.juice (.render "TEXT_TPL greeting" [("greeting", "hi")])
        "CSS_RULES")
    ∧ ((compileRun fsDemo hbOk cfgDemo "/work" "t.html" "/work/style.css"
        "t.txt" [("greeting", "hi")] "").text.map Rendered.isJuiced =
        some true) := by
  decide

/-- C5 (amended): when the CSS path is non-empty the CSS rules are inlined
into *both* rendered results — html and text alike (the `juiced` flag is
global to both render tasks); a CSS read failure fails the whole render;
with an empty CSS path no CSS read occurs (the only reads are the two
resolved template files). -/
theorem c5_css_inlining (fs : FS) (hb : Hb) (cfg : Config) (cwd : String)
    (html css text : String) (data : Data) :
    (css ≠ "" →
      (∀ r, (compileRun fs hb cfg cwd html css text data "").html =
          some r → r.isJuiced = true)
      ∧ (∀ r, (compileRun fs hb cfg cwd html css text data "").text =
          some r → r.isJuiced = true)
      ∧ (fs.read css = none →
          (compileRun fs hb cfg cwd html css text data "").err.isSome =
            true))
    ∧ (css = "" →
        (compileRun fs hb cfg cwd html css text data "").reads =
          [pathResolve cwd html, pathResolve cwd text]) := by
  constructor
  · intro hcss
    have hj : (css != "") = true := bne_iff_ne.mpr hcss
    refine ⟨fun r hr => ?_, fun r hr => ?_, fun hread => ?_⟩
    · unfold compileRun at hr
      simp only [templatePaths, if_neg (by simp : ¬ ("" : String) ≠ ""),
        hj] at hr
      exact proc_ok_juiced fs hb cwd html data css r (procVal_some hr)
    · unfold compileRun at hr
      simp only [templatePaths, if_neg (by simp : ¬ ("" : String) ≠ ""),
        hj] at hr
      exact proc_ok_juiced fs hb cwd text data css r (procVal_some hr)
    · unfold compileRun
      simp only [templatePaths, if_neg (by simp : ¬ ("" : String) ≠ ""),
        hj]
      have hh := proc_css_read_fail fs hb cwd html data css hread
      rcases hph : procErr (proc fs hb true cwd html data css).outcome
        with _ | e
      · rw [hph] at hh
        simp at hh
      · simp [hph]
  · intro hcss
    subst hcss
    unfold compileRun
    simp only [templatePaths, if_neg (by simp : ¬ ("" : String) ≠ "")]
    rw [show (("" : String) != "") = false from rfl]
    rw [proc_reads_not_juiced, proc_reads_not_juiced]
    rfl

/-- C5 witness: on the demo filesystem with stylesheet
`/work/style.css`, the html result carries the inlined CSS. -/
theorem c5_css_inlining_witness :
    Rendered.isJuiced (Rendered.juice
      (.render "HTML_TPL greeting" [("greeting", "hi")]) "CSS_RULES") =
      true :=
  ((c5_css_inlining fsDemo hbOk cfgDemo "/work" "t.html"
      "/work/style.css" "t.txt" [("greeting", "hi")]).1
    (by decide)).1
    (Rendered.juice (.render "HTML_TPL greeting" [("greeting", "hi")])
      "CSS_RULES")
    (by decide)

/-- C6 counterexample: compile failures at two *different* absolute paths
surface the identical error payload — the literal `true` — so the error
payload of a compile failure does not identify the path that failed. -/
theorem c6_counterexample :
    procErr (proc fsDemo hbBad false "/work" "t.html" [] "").outcome =
      some .boolTrue
    ∧ procErr (proc fsDemo hbBad false "/work" "t.txt" [] "").outcome =
      some .boolTrue
    ∧ pathResolve "/work" "t.html" ≠ pathResolve "/work" "t.txt" := by
  decide

/-- C6 (amended): a read failure surfaces the filesystem error object,
which identifies the failing absolute path; a compile failure surfaces the
literal `true` as the error — the descriptive message naming the absolute
path is passed in the *result* slot (and dropped by the callers), so the
two kinds are distinguishable but the compile-failure error payload does
not itself carry the path. -/
theorem c6_error_payloads (fs : FS) (hb : Hb) (juiced : Bool)
    (cwd input : String) (data : Data) (css : String) :
    (fs.read (pathResolve cwd input) = none →
      (proc fs hb juiced cwd input data css).outcome =
        .readFail (.fsErr (pathResolve cwd input))
      ∧ procErr (proc fs hb juiced cwd input data css).outcome =
          some (.fsErr (pathResolve cwd input)))
    ∧ (∀ tpl e, fs.read (pathResolve cwd input) = some tpl →
        hb.compileErr tpl = some e →
        (proc fs hb juiced cwd input data css).outcome =
          .compileFail ("Caught an exception while processing file: "
            ++ pathResolve cwd input ++ "\n" ++ e)
        ∧ procErr (proc fs hb juiced cwd input data css).outcome =
            some .boolTrue) := by
  constructor
  · intro h
    unfold proc
    simp [h, procErr]
  · intro tpl e hr hc
    unfold proc
    simp [hr, hc, procErr]

/-- C6 witness: a malformed template at `/work/t.html` surfaces the
payload `true`. -/
theorem c6_error_payloads_witness :
    procErr (proc fsDemo hbBad false "/work" "t.html" [] "").outcome =
      some .boolTrue :=
  ((c6_error_payloads fsDemo hbBad false "/work" "t.html" [] "").2
    "HTML_TPL greeting" "Parse error" (by decide) (by decide)).2

/-- C10: `fling` and `load` mutate the caller-supplied `options.params`
object in place (attaching `htmlbody` and `textbody` to it), apply
`_.defaults` to the options object itself (here: the missing `css` field
appears on it), and `load` pushes the *reference* to the params object
into the outbox rather than a copy — so a caller mutating its params
object after `load` changes the already-queued message. -/
theorem c10_params_mutated_in_place_and_aliased
    (h : Heap) (ro rp : Ref) (htmlv textv : HVal) (outbox : List HVal)
    (o2 : Obj)
    (hro : ro < h.length) (hrp : rp < h.length) (hne : ro ≠ rp)
    (hparams : getField (heapGet h ro) "params" = .vref rp)
    (hhtml : getField (heapGet h ro) "html" ≠ .vundef)
    (htext : getField (heapGet h ro) "text" ≠ .vundef)
    (hdata : getField (heapGet h ro) "data" ≠ .vundef)
    (htn : getField (heapGet h ro) "templateName" ≠ .vundef)
    (hcssm : getField (heapGet h ro) "css" = .vundef)
    (hcap : outbox.length < 500) :
    getField (heapGet (loadHeap h ro htmlv textv outbox).1 ro) "css" =
      .vstr ""
    ∧ getField (heapGet (loadHeap h ro htmlv textv outbox).1 rp)
        "htmlbody" = htmlv
    ∧ getField (heapGet (loadHeap h ro htmlv textv outbox).1 rp)
        "textbody" = textv
    ∧ (loadHeap h ro htmlv textv outbox).2.1 = outbox ++ [.vref rp]
    ∧ (loadHeap h ro htmlv textv outbox).2.2 =
        (none, some (outbox.length + 1))
    ∧ (queuedMessages
          (heapSet (loadHeap h ro htmlv textv outbox).1 rp o2)
          (loadHeap h ro htmlv textv outbox).2.1).getLast? = some o2
    ∧ (flingHeap h ro htmlv textv).2 = .vref rp := by
  -- the `_.defaults` pass only writes the missing `css` field
  have h1 : defaultObjField h ro "params" = h := by
    simp [defaultObjField, hparams]
  have h2 : defaultField h ro "html" (.vstr "") = h := by
    simp [defaultField, hhtml]
  have h3 : defaultField h ro "css" (.vstr "") =
      heapSet h ro (setField (heapGet h ro) "css" (.vstr "")) := by
    simp [defaultField, hcssm]
  have hg3ro : heapGet (heapSet h ro
      (setField (heapGet h ro) "css" (.vstr ""))) ro =
      setField (heapGet h ro) "css" (.vstr "") :=
    heapGet_heapSet_self h ro _ hro
  have hg3rp : heapGet (heapSet h ro
      (setField (heapGet h ro) "css" (.vstr ""))) rp = heapGet h rp :=
    heapGet_heapSet_other h ro rp _ hne
  have htext3 : getField (heapGet (heapSet h ro
      (setField (heapGet h ro) "css" (.vstr ""))) ro) "text" ≠
      .vundef := by
    rw [hg3ro, getField_setField_other _ _ _ _ (by decide)]
    exact htext
  have hdata3 : getField (heapGet (heapSet h ro
      (setField (heapGet h ro) "css" (.vstr ""))) ro) "data" ≠
      .vundef := by
    rw [hg3ro, getField_setField_other _ _ _ _ (by decide)]
    exact hdata
  have htn3 : getField (heapGet (heapSet h ro
      (setField (heapGet h ro) "css" (.vstr ""))) ro) "templateName" ≠
      .vundef := by
    rw [hg3ro, getField_setField_other _ _ _ _ (by decide)]
    exact htn
  have h4 : defaultField (heapSet h ro (setField (heapGet h ro) "css"
      (.vstr ""))) ro "text" (.vstr "") =
      heapSet h ro (setField (heapGet h ro) "css" (.vstr "")) := by
    simp [defaultField, htext3]
  have h5 : defaultObjField (heapSet h ro (setField (heapGet h ro) "css"
      (.vstr ""))) ro "data" =
      heapSet h ro (setField (heapGet h ro) "css" (.vstr "")) := by
    simp [defaultObjField, hdata3]
  have h6 : defaultField (heapSet h ro (setField (heapGet h ro) "css"
      (.vstr ""))) ro "templateName" (.vstr "") =
      heapSet h ro (setField (heapGet h ro) "css" (.vstr "")) := by
    simp [defaultField, htn3]
  have hAOD : applyOptionDefaults h ro =
      heapSet h ro (setField (heapGet h ro) "css" (.vstr "")) := by
    simp only [applyOptionDefaults]
    rw [h1, h2, h3, h4, h5, h6]
  -- `message = options.params` resolves to the caller's params reference
  have hp3 : getField (heapGet (heapSet h ro
      (setField (heapGet h ro) "css" (.vstr ""))) ro) "params" =
      .vref rp := by
    rw [hg3ro, getField_setField_other _ _ _ _ (by decide)]
    exact hparams
  have hSB : setBodies (applyOptionDefaults h ro) ro htmlv textv =
      (heapSet (heapSet h ro (setField (heapGet h ro) "css" (.vstr "")))
         rp (setField (setField (heapGet h rp) "htmlbody" htmlv)
           "textbody" textv),
       .vref rp) := by
    rw [hAOD]
    unfold setBodies
    simp only [hp3]
    rw [hg3rp]
  have hlen3 : (heapSet h ro (setField (heapGet h ro) "css"
      (.vstr ""))).length = h.length := List.length_set h ro _
  have hLH : loadHeap h ro htmlv textv outbox =
      (heapSet (heapSet h ro (setField (heapGet h ro) "css" (.vstr "")))
         rp (setField (setField (heapGet h rp) "htmlbody" htmlv)
           "textbody" textv),
       outbox ++ [.vref rp],
       (none, some (outbox ++ [(.vref rp : HVal)]).length)) := by
    unfold loadHeap
    rw [hSB, if_neg (by omega : ¬ outbox.length ≥ 500)]
  have hlenF : (heapSet (heapSet h ro (setField (heapGet h ro) "css"
      (.vstr ""))) rp (setField (setField (heapGet h rp) "htmlbody"
        htmlv) "textbody" textv)).length = h.length := by
    simp [heapSet, List.length_set]
  rw [hLH]
  refine ⟨?_, ?_, ?_, rfl, by simp, ?_, ?_⟩
  · rw [heapGet_heapSet_other _ _ _ _ (Ne.symm hne), hg3ro,
      getField_setField_self]
  · rw [heapGet_heapSet_self _ _ _ (by rw [hlen3]; exact hrp),
      getField_setField_other _ _ _ _ (by decide),
      getField_setField_self]
  · rw [heapGet_heapSet_self _ _ _ (by rw [hlen3]; exact hrp),
      getField_setField_self]
  · simp only [queuedMessages, List.map_append, List.map_cons,
      List.map_nil, List.getLast?_concat]
    rw [heapGet_heapSet_self _ _ _ (by rw [hlenF]; exact hrp)]
  · unfold flingHeap
    rw [hSB]

/-- C10 witness: on the demo heap (options at reference 0, caller params at
reference 1, `css` missing, empty outbox) `load` stamps `htmlbody` on the
caller's params object. -/
theorem c10_params_mutated_witness :
    getField (heapGet (loadHeap heapDemo 0
        (.vrend (.render "HTML_TPL greeting" []))
        (.vrend (.render "TEXT_TPL greeting" [])) []).1 1) "htmlbody" =
      .vrend (.render "HTML_TPL greeting" []) :=
  (c10_params_mutated_in_place_and_aliased heapDemo 0 1
    (.vrend (.render "HTML_TPL greeting" []))
    (.vrend (.render "TEXT_TPL greeting" [])) []
    [("subject", .vstr "edited")]
    (by decide) (by decide) (by decide) (by decide) (by decide)
    (by decide) (by decide) (by decide) (by decide) (by decide)).2.1

end Trebuchet
